import Mathlib

/-!
Verification of the filter-and-aggregate pipeline of src/app.py.

The embedding models the callback update_report (app.py lines 144-200)
together with the dataset-schema facts it consults: the lists of
VEHICLE TYPE CODE and CONTRIBUTING FACTOR VEHICLE columns computed at load
time (lines 25 and 31) and the presence probes for the optional columns
CRASH_YEAR, HOUR, DAY_OF_WEEK, LATITUDE and LONGITUDE.  Nullable cells are
Option values (a pandas NaN becomes none); fallible steps return Except,
since a groupby or mask on a missing column raises KeyError in pandas.
-/

/-- One row of the crash table.  The vehicle-type and contributing-factor
cells are lists with one entry per corresponding source column.  Coordinate
values are kept abstract as integers, since the pipeline only tests their
presence and passes them through. -/
structure Row where
  borough : Option String
  crashYear : Option Int
  injured : Option Int
  killed : Option Int
  vehicles : List (Option String)
  factors : List (Option String)
  hour : Option Int
  dow : Option String
  lat : Option Int
  lon : Option Int
deriving DecidableEq

/-- The loaded dataframe: rows plus the schema facts the pipeline probes.
vehicleCols and factorCols are the numbers of VEHICLE TYPE CODE and
CONTRIBUTING FACTOR VEHICLE columns found at load time; the flags record
presence of the optional columns. -/
structure Frame where
  rows : List Row
  hasCrashYear : Bool
  hasHour : Bool
  hasDow : Bool
  hasLat : Bool
  hasLon : Bool
  vehicleCols : Nat
  factorCols : Nat
deriving DecidableEq

/-- The five State values delivered to update_report by the UI: borough and
year dropdowns (None when cleared), the non-clearable injury-type string,
and the two multi-select lists (None before first use, possibly empty). -/
structure Selection where
  borough : Option String
  year : Option Int
  injuryType : String
  vehicleTypes : Option (List String)
  contribFactors : Option (List String)
deriving DecidableEq

-- Decidable equality for the pipeline result type, used to evaluate the
-- pipeline on the concrete frames below.
deriving instance DecidableEq for Except

/-- Python truthiness of the borough dropdown value: None and the empty
string are falsy, so the borough mask at line 148 only runs otherwise. -/
def truthyOptStr : Option String → Bool
  | none => false
  | some s => s != ""

/-- Python truthiness of the year dropdown value: None and 0 are falsy. -/
def truthyOptInt : Option Int → Bool
  | none => false
  | some y => y != 0

/-- Python truthiness of a multi-select value: None and the empty list are
falsy, so an empty explicit selection applies no filter. -/
def truthyOptList : Option (List String) → Bool
  | none => false
  | some l => !l.isEmpty

/-- Comparison of a nullable count cell with zero, as in the masks at lines
152 and 154: a NaN cell compares as False in pandas. -/
def posCell : Option Int → Bool
  | none => false
  | some n => decide (0 < n)

/-- OR-mask built by the loops at lines 155-166: iterate over the n
vehicle-type (resp. contributing-factor) columns; a cell matches when it is
non-null and its value is among the selected ones (Series.isin semantics,
where NaN is never a member). -/
def orIsin (n : Nat) (sel : List String) (cells : List (Option String)) : Bool :=
  (List.range n).any fun i =>
    match cells.getD i none with
    | some v => sel.contains v
    | none => false

/-- The sequence of boolean-mask filters of update_report (lines 145-166)
as list filtering, one let per Python if.  Equality with a null cell is
False in pandas, which the Option comparisons reproduce. -/
def filterRows (F : Frame) (s : Selection) : List Row :=
  let r1 := if truthyOptStr s.borough then
      F.rows.filter (fun r => r.borough == s.borough) else F.rows
  let r2 := if truthyOptInt s.year then
      r1.filter (fun r => r.crashYear == s.year) else r1
  let r3 := if s.injuryType == "injured" then
      r2.filter (fun r => posCell r.injured) else r2
  let r4 := if s.injuryType == "killed" then
      r3.filter (fun r => posCell r.killed) else r3
  let r5 := if truthyOptList s.vehicleTypes then
      r4.filter (fun r => orIsin F.vehicleCols (s.vehicleTypes.getD []) r.vehicles) else r4
  if truthyOptList s.contribFactors then
      r5.filter (fun r => orIsin F.factorCols (s.contribFactors.getD []) r.factors) else r5

/-- Borough histogram data (line 172): group sizes with dropna set to
False, so a null borough is its own bucket.  Keys are listed in
first-occurrence order; pandas sorts them for display, which no property
below depends on. -/
def bar_df (filtered : List Row) : List (Option String × Nat) :=
  ((filtered.map Row.borough).dedup).map fun k =>
    (k, filtered.countP (fun r => r.borough == k))

/-- Yearly counts (line 175): groupby on CRASH_YEAR with the default
dropna, so null years are dropped; keys sorted ascending. -/
def ts_df (filtered : List Row) : List (Int × Nat) :=
  let ys := filtered.filterMap Row.crashYear
  (ys.dedup.insertionSort (· ≤ ·)).map fun y => (y, ys.count y)

/-- Hour and day-of-week pair counts (line 179); rows with a null in either
key are dropped by groupby. -/
def heat_df (filtered : List Row) : List ((String × Int) × Nat) :=
  let ks := filtered.filterMap fun r =>
    match r.dow, r.hour with
    | some d, some h => some (d, h)
    | _, _ => none
  ks.dedup.map fun k => (k, ks.count k)

/-- Sum of a nullable count column (lines 184-185); Series.sum skips NaN. -/
def sumCells (cells : List (Option Int)) : Int :=
  (cells.filterMap id).sum

/-- Rows with both coordinates present (line 190). -/
def map_base (filtered : List Row) : List Row :=
  filtered.filter fun r => r.lat.isSome && r.lon.isSome

/-- Deterministic stand-in for DataFrame.sample with random_state fixed at
42 (line 192): with the seed fixed, the sample is a pure function of its
inputs that returns exactly n of the rows; which n rows the pandas
generator picks is irrelevant to every property below, so the model takes
the first n. -/
def sampleFixed (n : Nat) (rows : List Row) : List Row :=
  rows.take n

/-- Geospatial output rows (lines 190-192): all coordinate-bearing rows,
capped by the fixed-seed sample of 10000 when more survive. -/
def map_df (filtered : List Row) : List Row :=
  let m := map_base filtered
  if 10000 < m.length then sampleFixed 10000 m else m

/-- A chart output: either the designated empty-plot marker (empty_fig,
line 168) or the aggregate data handed to the corresponding plotting
call. -/
inductive Fig where
  | empty : Fig
  | bar : List (Option String × Nat) → Fig
  | line : List (Int × Nat) → Fig
  | heat : List ((String × Int) × Nat) → Fig
  | pie : Int → Int → Fig
  | mapPts : List Row → Fig
deriving DecidableEq

/-- The six outputs returned by update_report, in source order. -/
structure Report where
  barFig : Fig
  tsFig : Fig
  heatFig : Fig
  pieFig : Fig
  mapFig : Fig
  summary : String
deriving DecidableEq

/-- The all-empty report returned when the filtered set is empty
(lines 169-170). -/
def emptyReport : Report :=
  ⟨Fig.empty, Fig.empty, Fig.empty, Fig.empty, Fig.empty,
   "No crashes match the filters."⟩

/-- Aggregation stage of update_report (lines 168-200), applied to the
filtered rows.  The emptiness check comes first; the groupby on CRASH_YEAR
(line 175) is not guarded by a presence probe and raises KeyError when the
column is absent, whereas HOUR, DAY_OF_WEEK, LATITUDE and LONGITUDE are
probed and degrade the dependent chart to the empty marker. -/
def postFilter (F : Frame) (filtered : List Row) : Except String Report :=
  if filtered.isEmpty then .ok emptyReport
  else if !F.hasCrashYear then .error "KeyError: CRASH_YEAR"
  else .ok
    { barFig := Fig.bar (bar_df filtered)
      tsFig := Fig.line (ts_df filtered)
      heatFig := if F.hasHour && F.hasDow then Fig.heat (heat_df filtered)
                 else Fig.empty
      pieFig := Fig.pie (sumCells (filtered.map Row.injured))
                        (sumCells (filtered.map Row.killed))
      mapFig := if F.hasLat && F.hasLon then Fig.mapPts (map_df filtered)
                else Fig.empty
      summary := "Showing " ++ toString filtered.length ++
                 " crashes after filters." }

/-- The whole callback body (lines 144-200).  The year mask itself
(line 150) raises KeyError when a year is selected but CRASH_YEAR is
absent, before the emptiness check; otherwise filtering is total and the
aggregation stage runs on the filtered rows. -/
def update_report (F : Frame) (s : Selection) : Except String Report :=
  if truthyOptInt s.year && !F.hasCrashYear then .error "KeyError: CRASH_YEAR"
  else postFilter F (filterRows F s)

/-- Borough predicate as actually applied: vacuous unless a borough is
selected (Python truthiness), otherwise exact case-sensitive equality, a
null cell never matching. -/
def pBorough (s : Selection) (r : Row) : Bool :=
  !truthyOptStr s.borough || r.borough == s.borough

/-- Year predicate: vacuous unless a year is selected. -/
def pYear (s : Selection) (r : Row) : Bool :=
  !truthyOptInt s.year || r.crashYear == s.year

/-- Injury predicate: the two successive masks of lines 151-154 as one row
predicate; their guards are mutually exclusive string comparisons. -/
def pInjury (s : Selection) (r : Row) : Bool :=
  (!(s.injuryType == "injured") || posCell r.injured) &&
  (!(s.injuryType == "killed") || posCell r.killed)

/-- Vehicle-type predicate: vacuous unless a non-empty selection is made,
otherwise the OR-mask across all vehicle-type columns. -/
def pVehicle (F : Frame) (s : Selection) (r : Row) : Bool :=
  !truthyOptList s.vehicleTypes ||
    orIsin F.vehicleCols (s.vehicleTypes.getD []) r.vehicles

/-- Contributing-factor predicate, same shape as the vehicle one. -/
def pFactor (F : Frame) (s : Selection) (r : Row) : Bool :=
  !truthyOptList s.contribFactors ||
    orIsin F.factorCols (s.contribFactors.getD []) r.factors

/-- Conjunction of all active predicates. -/
def keep (F : Frame) (s : Selection) (r : Row) : Bool :=
  pBorough s r && pYear s r && pInjury s r && pVehicle F s r && pFactor F s r

/-- The five per-row filter predicates in the order the code applies them. -/
def predList (F : Frame) (s : Selection) : List (Row → Bool) :=
  [pBorough s, pYear s, pInjury s, pVehicle F s, pFactor F s]

/-- Apply a list of row predicates as successive filters. -/
def applyPreds (ps : List (Row → Bool)) (rows : List Row) : List Row :=
  ps.foldl (fun acc p => acc.filter p) rows

/-- The empty selection: nothing chosen in any control, with the injury
type at its non-clearable default. -/
def emptySelection : Selection :=
  ⟨none, none, "all", none, none⟩

/-- Concrete data used to instantiate the hypotheses of the theorems
below: a Brooklyn fatality in 2020 whose vehicle type sits in the first
vehicle column only. -/
def rowA : Row :=
  { borough := some "BROOKLYN", crashYear := some 2020, injured := some 0
    killed := some 1, vehicles := [some "Sedan", none]
    factors := [some "Speeding", none], hour := some 3, dow := some "Mon"
    lat := some 40, lon := some (-73) }

/-- A second concrete row: null borough, an injury, and a vehicle type
present only in the second vehicle column. -/
def rowB : Row :=
  { borough := none, crashYear := some 2019, injured := some 2
    killed := some 0, vehicles := [none, some "Bike"]
    factors := [none, none], hour := none, dow := none
    lat := none, lon := some 1 }

/-- A two-row frame with every optional column present and two vehicle and
factor columns. -/
def exFrame : Frame :=
  { rows := [rowA, rowB], hasCrashYear := true, hasHour := true
    hasDow := true, hasLat := true, hasLon := true
    vehicleCols := 2, factorCols := 2 }

/-- The same rows in a frame lacking every optional column. -/
def exFrameNoYear : Frame :=
  { rows := [rowA, rowB], hasCrashYear := false, hasHour := false
    hasDow := false, hasLat := false, hasLon := false
    vehicleCols := 2, factorCols := 2 }

/-- A one-row frame with no vehicle-type and no factor columns. -/
def exFrame0 : Frame :=
  { rows := [rowA], hasCrashYear := true, hasHour := true
    hasDow := true, hasLat := true, hasLon := true
    vehicleCols := 0, factorCols := 0 }

/-- A two-row frame where CRASH_YEAR is present but all of HOUR,
DAY_OF_WEEK, LATITUDE and LONGITUDE are absent. -/
def exFrameNoHour : Frame :=
  { rows := [rowA, rowB], hasCrashYear := true, hasHour := false
    hasDow := false, hasLat := false, hasLon := false
    vehicleCols := 2, factorCols := 2 }

/-- The selection of the worked example in the specification: borough
BROOKLYN, year 2020, injury type killed. -/
def exSel : Selection :=
  ⟨some "BROOKLYN", some 2020, "killed", none, none⟩

/-- A vehicle-type-only selection matching rowB in its second column. -/
def exSelV : Selection :=
  ⟨none, none, "all", some ["Bike"], none⟩

/-- A vehicle-type selection matching no row at all. -/
def exSelNoMatch : Selection :=
  ⟨none, none, "all", some ["Tank"], none⟩

lemma guard_filter (b : Bool) (p : Row → Bool) (l : List Row) :
    (if b then l.filter p else l) = l.filter (fun r => !b || p r) := by
  cases b <;> simp

lemma bool_reassoc (a b c d e f : Bool) :
    (f && (e && (d && (c && (b && a))))) = (a && b && (c && d) && e && f) := by
  cases a <;> cases b <;> cases c <;> cases d <;> cases e <;> cases f <;> rfl

lemma filterRows_eq_filter (F : Frame) (s : Selection) :
    filterRows F s = F.rows.filter (keep F s) := by
  unfold filterRows
  simp only [guard_filter]
  simp only [List.filter_filter]
  apply List.filter_congr
  intro r _
  simp only [keep, pBorough, pYear, pInjury, pVehicle, pFactor]
  exact bool_reassoc _ _ _ _ _ _

lemma applyPreds_eq_filter (ps : List (Row → Bool)) (rows : List Row) :
    applyPreds ps rows = rows.filter (fun r => ps.all (fun p => p r)) := by
  induction ps generalizing rows with
  | nil => simp [applyPreds]
  | cons p ps ih =>
      show applyPreds ps (rows.filter p) = _
      rw [ih, List.filter_filter]
      apply List.filter_congr
      intro r _
      simp [Bool.and_comm]

lemma keep_eq_all (F : Frame) (s : Selection) (r : Row) :
    keep F s r = (predList F s).all (fun p => p r) := by
  simp [keep, predList, Bool.and_assoc]

lemma perm_all_eq {α : Type} {ps qs : List (α → Bool)} (h : ps.Perm qs) (r : α) :
    ps.all (fun p => p r) = qs.all (fun p => p r) := by
  induction h with
  | nil => rfl
  | cons x _ ih => simp [List.all_cons, ih]
  | swap x y l => simp [List.all_cons, ← Bool.and_assoc, Bool.and_comm]
  | trans _ _ ih1 ih2 => rw [ih1, ih2]

lemma sum_map_add {α : Type} (f g : α → Nat) (ks : List α) :
    (ks.map fun k => f k + g k).sum = (ks.map f).sum + (ks.map g).sum := by
  induction ks with
  | nil => simp
  | cons k ks ih => simp [ih]; omega

lemma count_one {α : Type} [BEq α] [LawfulBEq α] {a : α} {l : List α}
    (hnd : l.Nodup) (ha : a ∈ l) : l.count a = 1 := by
  induction l with
  | nil => simp at ha
  | cons b t ih =>
      rw [List.count_cons]
      rcases List.mem_cons.mp ha with h | h
      · subst h
        have hnt : a ∉ t := (List.nodup_cons.mp hnd).1
        simp [List.count_eq_zero.mpr hnt]
      · have hbt : b ∉ t := (List.nodup_cons.mp hnd).1
        have hne : (b == a) = false := by
          rcases hb : b == a with _ | _
          · rfl
          · exact absurd (beq_iff_eq.mp hb ▸ h) hbt
        simp [hne, ih (List.nodup_cons.mp hnd).2 h]

lemma sum_ite_count {α : Type} [BEq α] [LawfulBEq α] (a : α) (ks : List α) :
    (ks.map fun k => if a == k then 1 else 0).sum = ks.count a := by
  induction ks with
  | nil => simp
  | cons k ks ih =>
      simp only [List.map_cons, List.sum_cons, List.count_cons, ih]
      rw [Bool.beq_comm]
      exact Nat.add_comm _ _

lemma sum_counts {α : Type} [BEq α] [LawfulBEq α] (keys l : List α)
    (hnd : keys.Nodup) (hcov : ∀ x ∈ l, x ∈ keys) :
    (keys.map fun k => l.count k).sum = l.length := by
  induction l with
  | nil => simp
  | cons a t ih =>
      have ha : a ∈ keys := hcov a (by simp)
      have hcov2 : ∀ x ∈ t, x ∈ keys := fun x hx => hcov x (by simp [hx])
      have hmap : (keys.map fun k => (a :: t).count k)
          = keys.map fun k => t.count k + if a == k then 1 else 0 := by
        simp [List.count_cons]
      rw [hmap, sum_map_add, ih hcov2, sum_ite_count]
      have h1 : keys.count a = 1 := count_one hnd ha
      simp [h1]

lemma bar_df_count (rows : List Row) (k : Option String) (c : Nat)
    (h : (k, c) ∈ bar_df rows) :
    c = rows.countP (fun r => r.borough == k) := by
  unfold bar_df at h
  rcases List.mem_map.mp h with ⟨k2, _, heq⟩
  cases heq
  rfl

lemma bar_df_keys (rows : List Row) (r : Row) (hr : r ∈ rows) :
    r.borough ∈ (bar_df rows).map Prod.fst := by
  unfold bar_df
  rw [List.map_map]
  have : r.borough ∈ (rows.map Row.borough).dedup :=
    List.mem_dedup.mpr (List.mem_map_of_mem Row.borough hr)
  simpa using this

lemma countP_eq_count_map (rows : List Row) (k : Option String) :
    rows.countP (fun r => r.borough == k) = (rows.map Row.borough).count k := by
  rw [List.count, List.countP_map]
  rfl

lemma bar_df_sum (rows : List Row) :
    ((bar_df rows).map Prod.snd).sum = rows.length := by
  unfold bar_df
  rw [List.map_map]
  have h1 : (((rows.map Row.borough).dedup).map
      fun k => rows.countP (fun r => r.borough == k))
      = ((rows.map Row.borough).dedup).map fun k => (rows.map Row.borough).count k := by
    simp [countP_eq_count_map]
  rw [show ((((rows.map Row.borough).dedup).map
      (Prod.snd ∘ fun k => (k, rows.countP fun r => r.borough == k)))
      = (((rows.map Row.borough).dedup).map
        fun k => rows.countP fun r => r.borough == k)) from rfl]
  rw [h1, sum_counts _ _ (List.nodup_dedup _) (fun x hx => List.mem_dedup.mpr hx),
    List.length_map]

lemma orIsin_iff (n : Nat) (sel : List String) (cells : List (Option String)) :
    orIsin n sel cells = true ↔
      ∃ i, i < n ∧ ∃ v ∈ sel, cells.getD i none = some v := by
  unfold orIsin
  rw [List.any_eq_true]
  constructor
  · rintro ⟨i, hi, hmatch⟩
    refine ⟨i, List.mem_range.mp hi, ?_⟩
    rcases hc : cells.getD i none with _ | v
    · rw [hc] at hmatch; simp at hmatch
    · rw [hc] at hmatch
      exact ⟨v, List.elem_iff.mp hmatch, rfl⟩
  · rintro ⟨i, hi, v, hv, hc⟩
    refine ⟨i, List.mem_range.mpr hi, ?_⟩
    rw [hc]
    exact List.elem_iff.mpr hv

lemma map_df_length (filtered : List Row) :
    (map_df filtered).length = min 10000 (map_base filtered).length := by
  unfold map_df sampleFixed
  by_cases h : 10000 < (map_base filtered).length
  · simp [h, List.length_take]
  · simp [h]
    omega

lemma update_report_of_empty (F : Frame) (s : Selection)
    (hY : truthyOptInt s.year = false ∨ F.hasCrashYear = true)
    (h : filterRows F s = []) :
    update_report F s = .ok emptyReport := by
  unfold update_report
  have hg : (truthyOptInt s.year && !F.hasCrashYear) = false := by
    rcases hY with hY | hY <;> simp [hY]
  rw [hg]
  simp [postFilter, h]

lemma update_report_ok (F : Frame) (s : Selection)
    (hY : F.hasCrashYear = true) (hne : filterRows F s ≠ []) :
    update_report F s = .ok
      { barFig := Fig.bar (bar_df (filterRows F s))
        tsFig := Fig.line (ts_df (filterRows F s))
        heatFig := if F.hasHour && F.hasDow
                   then Fig.heat (heat_df (filterRows F s)) else Fig.empty
        pieFig := Fig.pie (sumCells ((filterRows F s).map Row.injured))
                          (sumCells ((filterRows F s).map Row.killed))
        mapFig := if F.hasLat && F.hasLon
                  then Fig.mapPts (map_df (filterRows F s)) else Fig.empty
        summary := "Showing " ++ toString (filterRows F s).length ++
                   " crashes after filters." } := by
  unfold update_report
  simp only [hY, Bool.not_true, Bool.and_false, Bool.false_eq_true, if_false]
  unfold postFilter
  simp [hY, List.isEmpty_iff, hne]


/-- C1: every row of the filtered set produced by the pipeline comes from the
full dataset and satisfies the conjunction of all active predicates: borough
equality when a borough is selected, year equality when a year is selected,
positive injured count under injury type injured, positive killed count under
injury type killed, and the vehicle-type and contributing-factor OR-membership
predicates when those sets are selected (each predicate is vacuously true when
its control is unselected). -/
theorem filtered_subset_and_active_preds (F : Frame) (s : Selection) (r : Row)
    (hr : r ∈ filterRows F s) :
    r ∈ F.rows ∧ pBorough s r = true ∧ pYear s r = true ∧ pInjury s r = true ∧
      pVehicle F s r = true ∧ pFactor F s r = true := by
  rw [filterRows_eq_filter] at hr
  have h := List.mem_filter.mp hr
  have hk := h.2
  simp only [keep, Bool.and_eq_true] at hk
  exact ⟨h.1, hk.1.1.1.1, hk.1.1.1.2, hk.1.1.2, hk.1.2, hk.2⟩

/-- C1 witness: the Brooklyn 2020 killed selection keeps rowA, which satisfies every active predicate. -/
theorem filtered_subset_and_active_preds_witness :
    rowA ∈ exFrame.rows ∧ pBorough exSel rowA = true ∧ pYear exSel rowA = true ∧
      pInjury exSel rowA = true ∧ pVehicle exFrame exSel rowA = true ∧
      pFactor exFrame exSel rowA = true :=
  filtered_subset_and_active_preds exFrame exSel rowA (by decide)

/-- C2: whenever the filtered set is empty, the pipeline returns the empty-plot
marker for all five charts and the summary string No crashes match the
filters.  The check precedes aggregation: the conclusion holds even for frames
on which aggregation would raise (hasCrashYear false), provided no year is
selected; the hypothesis hY records that the UI can only send a year when the
CRASH_YEAR column exists, since the year options are computed from it. -/
theorem empty_filtered_gives_empty_report (F : Frame) (s : Selection)
    (hY : truthyOptInt s.year = false ∨ F.hasCrashYear = true)
    (h : filterRows F s = []) :
    update_report F s = .ok emptyReport :=
  update_report_of_empty F s hY h

/-- C2 witness: a vehicle-type selection matching nothing, on a frame whose aggregation stage would raise, still yields the all-empty report. -/
theorem empty_filtered_gives_empty_report_witness :
    filterRows exFrameNoYear exSelNoMatch = [] ∧
      update_report exFrameNoYear exSelNoMatch = .ok emptyReport :=
  ⟨by decide,
   empty_filtered_gives_empty_report exFrameNoYear exSelNoMatch (Or.inl rfl) (by decide)⟩

/-- C3: for a non-empty filtered set with both coordinate columns present, the
geospatial sample has size exactly min 10000 (number of filtered rows with
both coordinates present): all such rows when at most 10000, exactly 10000
otherwise. -/
theorem geo_sample_size_min (F : Frame) (s : Selection)
    (hY : F.hasCrashYear = true) (hla : F.hasLat = true) (hlo : F.hasLon = true)
    (hne : filterRows F s ≠ []) :
    ∃ rep, update_report F s = .ok rep ∧
      rep.mapFig = Fig.mapPts (map_df (filterRows F s)) ∧
      (map_df (filterRows F s)).length = min 10000 (map_base (filterRows F s)).length := by
  refine ⟨_, update_report_ok F s hY hne, ?_, map_df_length _⟩
  simp [hla, hlo]

/-- C3 witness: concrete instantiation on the two-row frame. -/
theorem geo_sample_size_min_witness :
    filterRows exFrame exSel ≠ [] ∧
      ∃ rep, update_report exFrame exSel = .ok rep ∧
        rep.mapFig = Fig.mapPts (map_df (filterRows exFrame exSel)) ∧
        (map_df (filterRows exFrame exSel)).length =
          min 10000 (map_base (filterRows exFrame exSel)).length :=
  ⟨by decide, geo_sample_size_min exFrame exSel rfl rfl rfl (by decide)⟩

/-- C4: the pipeline is deterministic.  In the embedding update_report is a
pure function of the frame and the selection, with the fixed-seed sample
modelled as a deterministic function, so equal inputs give equal outputs for
all six results including the geospatial sample; no state outside the two
arguments is consulted. -/
theorem pipeline_deterministic (F F2 : Frame) (s s2 : Selection)
    (hF : F = F2) (hs : s = s2) :
    update_report F s = update_report F2 s2 ∧
      map_df (filterRows F s) = map_df (filterRows F2 s2) := by
  subst hF; subst hs; exact ⟨rfl, rfl⟩

/-- C4 witness: concrete instantiation. -/
theorem pipeline_deterministic_witness :
    update_report exFrame exSel = update_report exFrame exSel ∧
      map_df (filterRows exFrame exSel) = map_df (filterRows exFrame exSel) :=
  pipeline_deterministic exFrame exFrame exSel exSel rfl rfl

lemma keep_of_mem {F : Frame} {s : Selection} {r : Row}
    (hr : r ∈ filterRows F s) : keep F s r = true := by
  rw [filterRows_eq_filter] at hr
  exact (List.mem_filter.mp hr).2

/-- C5: with a non-empty vehicle-type selection, a row passes the vehicle
predicate if and only if at least one of its vehicle-type columns holds at
least one selected value (OR across columns and values), and every row kept by
the pipeline satisfies that disjunction; the contributing-factor selection has
the same semantics. -/
theorem or_membership_semantics (F : Frame) (s : Selection) (r : Row) :
    (∀ sel, s.vehicleTypes = some sel → sel ≠ [] →
      ((r ∈ filterRows F s →
         ∃ i, i < F.vehicleCols ∧ ∃ v ∈ sel, r.vehicles.getD i none = some v) ∧
       (pVehicle F s r = true ↔
         ∃ i, i < F.vehicleCols ∧ ∃ v ∈ sel, r.vehicles.getD i none = some v))) ∧
    (∀ sel, s.contribFactors = some sel → sel ≠ [] →
      ((r ∈ filterRows F s →
         ∃ i, i < F.factorCols ∧ ∃ v ∈ sel, r.factors.getD i none = some v) ∧
       (pFactor F s r = true ↔
         ∃ i, i < F.factorCols ∧ ∃ v ∈ sel, r.factors.getD i none = some v))) := by
  constructor
  · intro sel hsel hne
    have htr : truthyOptList s.vehicleTypes = true := by
      rw [hsel]; simp [truthyOptList, hne]
    have htr2 : truthyOptList (some sel) = true := hsel ▸ htr
    have hp : pVehicle F s r = orIsin F.vehicleCols sel r.vehicles := by
      simp [pVehicle, hsel, htr2]
    refine ⟨?_, by rw [hp]; exact orIsin_iff _ _ _⟩
    intro hr
    have hk := keep_of_mem hr
    simp only [keep, Bool.and_eq_true] at hk
    have hv := hk.1.2
    rw [hp] at hv
    exact (orIsin_iff _ _ _).mp hv
  · intro sel hsel hne
    have htr : truthyOptList s.contribFactors = true := by
      rw [hsel]; simp [truthyOptList, hne]
    have htr2 : truthyOptList (some sel) = true := hsel ▸ htr
    have hp : pFactor F s r = orIsin F.factorCols sel r.factors := by
      simp [pFactor, hsel, htr2]
    refine ⟨?_, by rw [hp]; exact orIsin_iff _ _ _⟩
    intro hr
    have hk := keep_of_mem hr
    simp only [keep, Bool.and_eq_true] at hk
    have hv := hk.2
    rw [hp] at hv
    exact (orIsin_iff _ _ _).mp hv

/-- C5 witness: rowB is kept although its selected vehicle type appears only in the second of its two vehicle columns. -/
theorem or_membership_semantics_witness :
    ∃ i, i < exFrame.vehicleCols ∧ ∃ v ∈ ["Bike"], rowB.vehicles.getD i none = some v :=
  ((or_membership_semantics exFrame exSelV rowB).1 ["Bike"] rfl (by decide)).1 (by decide)

/-- C6: for a non-empty filtered set, the borough histogram pairs each key
with the number of filtered rows having that borough, a null borough is kept
as its own bucket (every row including null-borough ones contributes a key),
and the bucket counts sum exactly to the filtered-set size. -/
theorem borough_histogram_counts (F : Frame) (s : Selection)
    (hY : F.hasCrashYear = true) (hne : filterRows F s ≠ []) :
    ∃ rep, update_report F s = .ok rep ∧
      rep.barFig = Fig.bar (bar_df (filterRows F s)) ∧
      (∀ k c, (k, c) ∈ bar_df (filterRows F s) →
        c = (filterRows F s).countP (fun r => r.borough == k)) ∧
      (∀ r ∈ filterRows F s, r.borough ∈ (bar_df (filterRows F s)).map Prod.fst) ∧
      ((bar_df (filterRows F s)).map Prod.snd).sum = (filterRows F s).length := by
  refine ⟨_, update_report_ok F s hY hne, rfl, ?_, ?_, bar_df_sum _⟩
  · exact fun k c h => bar_df_count _ k c h
  · exact fun r hr => bar_df_keys _ r hr

/-- C6 witness: concrete instantiation with a null-borough row present. -/
theorem borough_histogram_counts_witness :
    filterRows exFrame emptySelection ≠ [] ∧
      ∃ rep, update_report exFrame emptySelection = .ok rep ∧
        rep.barFig = Fig.bar (bar_df (filterRows exFrame emptySelection)) ∧
        (∀ k c, (k, c) ∈ bar_df (filterRows exFrame emptySelection) →
          c = (filterRows exFrame emptySelection).countP (fun r => r.borough == k)) ∧
        (∀ r ∈ filterRows exFrame emptySelection,
          r.borough ∈ (bar_df (filterRows exFrame emptySelection)).map Prod.fst) ∧
        ((bar_df (filterRows exFrame emptySelection)).map Prod.snd).sum =
          (filterRows exFrame emptySelection).length :=
  ⟨by decide, borough_histogram_counts exFrame emptySelection rfl (by decide)⟩

/-- C7: the empty selection (no borough, no year, injury type all, no vehicle
types, no contributing factors) filters nothing: the filtered set is the full
dataset and the pipeline output is the aggregation stage applied to the full
dataset, identical to applying no filters at all. -/
theorem empty_selection_full_aggregates (F : Frame) :
    filterRows F emptySelection = F.rows ∧
      update_report F emptySelection = postFilter F F.rows := by
  have h : filterRows F emptySelection = F.rows := by
    simp [filterRows, emptySelection, truthyOptStr, truthyOptInt, truthyOptList]
  refine ⟨h, ?_⟩
  unfold update_report
  rw [h]
  simp [emptySelection, truthyOptInt]

/-- C8: the five filter predicates commute: applying them as successive
filters in any permuted order yields the same filtered rows as the order used
by the pipeline (borough, year, injury type, vehicle types, contributing
factors). -/
theorem filter_predicates_commute (F : Frame) (s : Selection)
    (ps : List (Row → Bool)) (h : ps.Perm (predList F s)) :
    applyPreds ps F.rows = filterRows F s := by
  rw [applyPreds_eq_filter, filterRows_eq_filter]
  apply List.filter_congr
  intro r _
  rw [perm_all_eq h r, ← keep_eq_all]

/-- C8 witness: swapping the borough and year steps leaves the filtered rows unchanged. -/
theorem filter_predicates_commute_witness :
    applyPreds [pYear exSel, pBorough exSel, pInjury exSel,
      pVehicle exFrame exSel, pFactor exFrame exSel] exFrame.rows =
      filterRows exFrame exSel :=
  filter_predicates_commute exFrame exSel _
    (by unfold predList; exact List.Perm.swap _ _ _)

/-- C9 counterexample: the claim includes crash year among the optional
columns that degrade gracefully, but the groupby on CRASH_YEAR at line 175 is
not guarded by a presence probe: on a frame lacking CRASH_YEAR with a
non-empty filtered set the pipeline raises KeyError instead of substituting
the empty marker, so the claim as stated is false. -/
theorem crash_year_absent_errors :
    update_report exFrameNoYear emptySelection = .error "KeyError: CRASH_YEAR" := by
  decide

/-- C9 amended: for every frame whose CRASH_YEAR column is present, the
pipeline never returns an error; absence of HOUR or DAY_OF_WEEK degrades only
the heatmap to the empty marker and absence of LATITUDE or LONGITUDE only the
map, while the remaining outputs (borough bar, yearly series, pie, summary)
are identical to those computed on the same frame with all four optional
columns present. -/
theorem optional_columns_degrade (F : Frame) (s : Selection)
    (hY : F.hasCrashYear = true) :
    ∃ rep, update_report F s = .ok rep ∧
      ((F.hasHour = false ∨ F.hasDow = false) → rep.heatFig = Fig.empty) ∧
      ((F.hasLat = false ∨ F.hasLon = false) → rep.mapFig = Fig.empty) ∧
      ∀ rep2, update_report
          { F with hasHour := true, hasDow := true, hasLat := true, hasLon := true } s
          = .ok rep2 →
        rep.barFig = rep2.barFig ∧ rep.tsFig = rep2.tsFig ∧
        rep.pieFig = rep2.pieFig ∧ rep.summary = rep2.summary := by
  by_cases hne : filterRows F s = []
  · refine ⟨emptyReport, update_report_of_empty F s (Or.inr hY) hne,
      fun _ => rfl, fun _ => rfl, ?_⟩
    intro rep2 h2
    have hne2 : filterRows
        { F with hasHour := true, hasDow := true, hasLat := true, hasLon := true } s
        = [] := hne
    rw [update_report_of_empty
      { F with hasHour := true, hasDow := true, hasLat := true, hasLon := true }
      s (Or.inr hY) hne2] at h2
    cases h2
    exact ⟨rfl, rfl, rfl, rfl⟩
  · refine ⟨_, update_report_ok F s hY hne, ?_, ?_, ?_⟩
    · rintro (h | h) <;> simp [h]
    · rintro (h | h) <;> simp [h]
    · intro rep2 h2
      have h3 := update_report_ok
        { F with hasHour := true, hasDow := true, hasLat := true, hasLon := true } s hY hne
      rw [h3] at h2
      cases h2
      exact ⟨rfl, rfl, rfl, rfl⟩

/-- C9 witness: a frame lacking all four probed optional columns still yields a successful report with the heatmap and map degraded. -/
theorem optional_columns_degrade_witness :
    ∃ rep, update_report exFrameNoHour emptySelection = .ok rep ∧
      ((exFrameNoHour.hasHour = false ∨ exFrameNoHour.hasDow = false) →
        rep.heatFig = Fig.empty) ∧
      ((exFrameNoHour.hasLat = false ∨ exFrameNoHour.hasLon = false) →
        rep.mapFig = Fig.empty) ∧
      ∀ rep2, update_report
          { exFrameNoHour with hasHour := true, hasDow := true, hasLat := true, hasLon := true }
          emptySelection = .ok rep2 →
        rep.barFig = rep2.barFig ∧ rep.tsFig = rep2.tsFig ∧
        rep.pieFig = rep2.pieFig ∧ rep.summary = rep2.summary :=
  optional_columns_degrade exFrameNoHour emptySelection rfl

/-- C10: if a non-empty vehicle-type (resp. contributing-factor) selection is
made but the dataset has no vehicle-type (resp. contributing-factor) columns,
the OR-mask is all false, the filtered set is empty, and the pipeline returns
the all-empty report with summary No crashes match the filters. -/
theorem empty_or_mask_empty_report (F : Frame) (s : Selection)
    (hY : truthyOptInt s.year = false ∨ F.hasCrashYear = true)
    (h : (F.vehicleCols = 0 ∧ truthyOptList s.vehicleTypes = true) ∨
         (F.factorCols = 0 ∧ truthyOptList s.contribFactors = true)) :
    update_report F s = .ok emptyReport := by
  have hempty : filterRows F s = [] := by
    rw [filterRows_eq_filter]
    apply List.filter_eq_nil_iff.mpr
    intro r _
    rcases h with ⟨h0, htr⟩ | ⟨h0, htr⟩
    · simp [keep, pVehicle, htr, h0, orIsin]
    · simp [keep, pFactor, htr, h0, orIsin]
  exact update_report_of_empty F s hY hempty

/-- C10 witness: a vehicle-type selection on a frame with zero vehicle columns yields the all-empty report. -/
theorem empty_or_mask_empty_report_witness :
    update_report exFrame0 exSelV = .ok emptyReport :=
  empty_or_mask_empty_report exFrame0 exSelV (Or.inl rfl) (Or.inl ⟨rfl, rfl⟩)
